import Mathlib

/-!
Shallow embedding of the neutorch repository (files
`neutorch/dataset/segmentation.py` and `neutorch/model/ViT.py`) used to
settle the specification claims.  Python integers are modelled as `ℤ`,
Python floats as exact rationals `ℚ`, numpy arrays by their flattened
value lists and their shape tuples (`List ℤ` / `List ℕ`).
-/

namespace Neutorch

/-- The kinds of transform primitives that appear in
`CremiDataset._prepare_transform` (segmentation.py, lines 95-112).  The
transform classes themselves live in `neutorch.dataset.transform`, which is
not part of the two source files; only their identities and order are needed
here. `oneOf` carries the list of its alternative arms, as in the source. -/
inductive TransformKind where
  | normalizeTo01 : TransformKind
  | adjustBrightness : TransformKind
  | adjustContrast : TransformKind
  | gamma : TransformKind
  | oneOf : List TransformKind → TransformKind
  | noise : TransformKind
  | gaussianBlur2D : TransformKind
  | blackBox : TransformKind
  | perspective2D : TransformKind
  | flip : TransformKind
  | transpose : TransformKind
  | missAlignment : TransformKind

/-- Modelled from the spec: the `Compose` class of
`neutorch.dataset.transform` is not under the two source files.  Per the
spec it owns the ordered transform list and a derived `shrink_size`
attribute (elementwise sum of the member transforms' shrink sizes).  The
member transforms' individual shrink values are also not in the source
files, so `shrink_size` is carried as data here. -/
structure Compose where
  transforms : List TransformKind
  shrink_size : List ℤ

/-- The transform pipeline built by `CremiDataset._prepare_transform`
(segmentation.py lines 95-112): the literal ordered list passed to
`Compose`, commented-out entries (`RotateScale`, `DropSection`) omitted as
in the source. -/
def prepare_transform : List TransformKind :=
  [ TransformKind.normalizeTo01,
    TransformKind.adjustBrightness,
    TransformKind.adjustContrast,
    TransformKind.gamma,
    TransformKind.oneOf [TransformKind.noise, TransformKind.gaussianBlur2D],
    TransformKind.blackBox,
    TransformKind.perspective2D,
    TransformKind.flip,
    TransformKind.transpose,
    TransformKind.missAlignment ]

/-- A raw volume as loaded from one HDF5 file: the `volumes/raw` image array
(raw integer intensities) and the `volumes/labels/neuron_ids` label array,
each given by its flattened list of values.  File IO itself is external. -/
structure RawVolume where
  image : List ℤ
  label : List ℤ
  deriving DecidableEq

/-- Modelled from the spec: `GroundTruthVolume` of
`neutorch.dataset.ground_truth_volume` is not under the two source files.
Per the spec it wraps one (image, label) pair plus the configured
pre-transform `patch_size`; only those constructor arguments matter for the
claims (segmentation.py line 69 passes exactly `image`, `label` and
`patch_size=patch_size_before_transform`). -/
structure GroundTruthVolume where
  image : List ℚ
  label : List ℤ
  patch_size : List ℤ
  deriving DecidableEq

/-- Python slice `l[-3:]`: the last three elements (the whole list when it
has fewer than three elements, as in Python). -/
def pyLastSlice3 {α : Type} (l : List α) : List α :=
  l.drop (l.length - 3)

/-- The `patch_size` constructor argument of `CremiDataset`: a Python `int`
or a tuple of `int`s (segmentation.py line 30). -/
inductive PatchSizeArg where
  | int : ℤ → PatchSizeArg
  | tuple : List ℤ → PatchSizeArg
  deriving DecidableEq

/-- segmentation.py lines 42-43: `if isinstance(patch_size, int): patch_size
= (patch_size,) * 3`.  A tuple argument is kept as is. -/
def broadcastPatchSize : PatchSizeArg → List ℤ
  | PatchSizeArg.int p => [p, p, p]
  | PatchSizeArg.tuple l => l

/-- segmentation.py lines 49-55: the pre-transform (oversized) patch size,
`tuple(p + s0 + s1 for p, s0, s1 in zip(patch_size,
self.transform.shrink_size[:3], self.transform.shrink_size[-3:]))`.
`zip` truncates to the shortest argument, as `List.zipWith3` does. -/
def patch_size_before_transform (patch_size : List ℤ) (shrink_size : List ℤ) : List ℤ :=
  List.zipWith3 (fun p s0 s1 => p + s0 + s1)
    patch_size (shrink_size.take 3) (pyLastSlice3 shrink_size)

/-- segmentation.py line 68: `image.astype(np.float32) / 255.` applied to a
raw integer image array, modelled with exact rational arithmetic. -/
def normalizeImage (image : List ℤ) : List ℚ :=
  image.map (fun (v : ℤ) => (v : ℚ) / 255)

/-- One iteration of the loading loop of `CremiDataset.__init__`
(segmentation.py lines 64-70): normalize the raw image and build a
`GroundTruthVolume` with the oversized patch size. -/
def loadVolume (psBT : List ℤ) (rv : RawVolume) : GroundTruthVolume :=
  { image := normalizeImage rv.image, label := rv.label, patch_size := psBT }

/-- The state a successfully constructed `CremiDataset` holds
(segmentation.py lines 45-73). -/
structure CremiDataset where
  patch_size : List ℤ
  transform : Compose
  training_volumes : List GroundTruthVolume
  validation_volumes : List GroundTruthVolume

/-- The errors raised by the two `assert` statements at the top of
`CremiDataset.__init__` (segmentation.py lines 39-40). -/
inductive ConfigError where
  | ratioNotAboveHalf : ConfigError
  | ratioNotBelowOne : ConfigError
  deriving DecidableEq

/-- The loading loop of `CremiDataset.__init__` (segmentation.py lines
62-70) over the three CREMI files (sample_A, sample_B, sample_C; here the
already-loaded raw arrays `rvA rvB rvC`, since HDF5 IO is external): each
becomes a `GroundTruthVolume` with the oversized patch size computed from
the broadcast `patch_size` and the `Compose` pipeline's `shrink_size`
attribute `shrink` (whose value lives in the transform module, outside the
two source files). -/
def loadedVolumes (psArg : PatchSizeArg) (shrink : List ℤ)
    (rvA rvB rvC : RawVolume) : List GroundTruthVolume :=
  let psBT := patch_size_before_transform (broadcastPatchSize psArg) shrink
  [loadVolume psBT rvA, loadVolume psBT rvB, loadVolume psBT rvC]

/-- The remainder of `CremiDataset.__init__` (segmentation.py lines
42-73): record `self.patch_size`, build `self.transform`, load the volumes
and split them: `self.training_volumes = volumes[1:]`,
`self.validation_volumes = [volumes[0]]`. -/
def cremiInitCore (psArg : PatchSizeArg) (shrink : List ℤ)
    (rvA rvB rvC : RawVolume) : CremiDataset :=
  let volumes := loadedVolumes psArg shrink rvA rvB rvC
  { patch_size := broadcastPatchSize psArg,
    transform := { transforms := prepare_transform, shrink_size := shrink },
    training_volumes := volumes.drop 1,
    validation_volumes := volumes.take 1 }

/-- `CremiDataset.__init__` (segmentation.py lines 28-73): assert
`training_split_ratio > 0.5` and `< 1.`, then run the unconditional body.
The float ratio is modelled as an exact rational. -/
def cremiInit (training_split_ratio : ℚ) (psArg : PatchSizeArg) (shrink : List ℤ)
    (rvA rvB rvC : RawVolume) : Except ConfigError CremiDataset :=
  if ¬ (training_split_ratio > 1/2) then Except.error ConfigError.ratioNotAboveHalf
  else if ¬ (training_split_ratio < 1) then Except.error ConfigError.ratioNotBelowOne
  else Except.ok (cremiInitCore psArg shrink rvA rvB rvC)

/-- Whether an `Except` computation succeeded. -/
def isOkB {ε α : Type} : Except ε α → Bool
  | Except.ok _ => true
  | Except.error _ => false

/-- Modelled from the spec: the `Patch` class of
`neutorch.dataset.transform` is not under the two source files.  Per the
spec it carries the image/label arrays and pending-shrink metadata; the
claims about the sampling entry points only inspect its `shape` attribute,
so only the shape is represented. -/
structure Patch where
  shape : List ℤ
  deriving DecidableEq

/-- The error raised by the `assert patch.shape[-3:] == self.patch_size`
postcondition of `random_training_patch` (segmentation.py line 84); the
assertion message carries the offending shape. -/
inductive PostconditionError where
  | patchShapeMismatch : List ℤ → PostconditionError
  deriving DecidableEq

/-- `CremiDataset.random_training_patch` (segmentation.py lines 76-85):
pick a random training volume (`random.choice`, modelled by the index
`choice`), draw `volume.random_patch`, apply `self.transform` to it, apply
the delayed shrink, then assert `patch.shape[-3:] == self.patch_size` and
return the patch.  `random_patch`, the `Compose.__call__` application and
`Patch.apply_delayed_shrink_size` live outside the two source files, so
they are parameters (`randomPatch`, `transformApply`,
`applyDelayedShrink`); the two `print` calls have no effect on the
result. -/
def random_training_patch (d : CremiDataset)
    (randomPatch : GroundTruthVolume → Patch)
    (transformApply : Patch → Patch)
    (applyDelayedShrink : Patch → Patch)
    (choice : Fin d.training_volumes.length) :
    Except PostconditionError Patch :=
  let volume := d.training_volumes.get choice
  let patch := randomPatch volume
  let patch := transformApply patch
  let patch := applyDelayedShrink patch
  if pyLastSlice3 patch.shape = d.patch_size then Except.ok patch
  else Except.error (PostconditionError.patchShapeMismatch patch.shape)

/-- `CremiDataset.random_validation_patch` (segmentation.py lines 87-93):
the same three stages over a random validation volume, with no assertion
before returning the patch. -/
def random_validation_patch (d : CremiDataset)
    (randomPatch : GroundTruthVolume → Patch)
    (transformApply : Patch → Patch)
    (applyDelayedShrink : Patch → Patch)
    (choice : Fin d.validation_volumes.length) : Patch :=
  let volume := d.validation_volumes.get choice
  let patch := randomPatch volume
  let patch := transformApply patch
  let patch := applyDelayedShrink patch
  patch

/-- The patch-size validity condition as the spec words it, for comparison
with the constructor's actual checks: "a positive integer, or a 3-tuple of
positive integers". -/
def specValidPatchSize : PatchSizeArg → Bool
  | PatchSizeArg.int p => decide (0 < p)
  | PatchSizeArg.tuple l => decide (l.length = 3) && l.all (fun x => decide (0 < x))

/-! Shape-level semantics of `neutorch/model/ViT.py`.  Each layer of the
network is modelled by its effect on the tensor shape (a `List ℕ` of
dimension sizes); a layer that would raise on its input shape yields
`none`.  Elementwise layers (`GELU`, `Dropout`, `Softmax`) preserve the
shape and are identities here. -/

/-- A tensor shape: the list of dimension sizes. -/
abbrev Shape := List ℕ

/-- `nn.Linear(inF, outF)`: acts on the last dimension, which must equal
`inF`, and replaces it by `outF`. -/
def linear_shape (inF outF : ℕ) (s : Shape) : Option Shape :=
  match s.getLast? with
  | some d => if d = inF then some (s.dropLast ++ [outF]) else none
  | none => none

/-- `nn.LayerNorm(dim)` (as used in `PreNorm`): normalizes over the last
dimension, which must equal `dim`; the shape is unchanged. -/
def layer_norm_shape (dim : ℕ) (s : Shape) : Option Shape :=
  match s.getLast? with
  | some d => if d = dim then some s else none
  | none => none

/-- `Rearrange('b n pci pz py px -> b n (pci pz py px)')` (ViT.py line 94):
requires a rank-6 input, flattens the last four dimensions. -/
def rearrange_flatten_shape : Shape → Option Shape
  | [b, n, c, z, y, x] => some [b, n, c * z * y * x]
  | _ => none

/-- `tensor.chunk(3, dim=-1)` as used in `Attention.forward` (ViT.py line
54): the last dimension is `inner_dim * 3` there, so the three chunks share
one shape with last dimension divided by 3; divisibility is required for
the three chunks to be of equal size. -/
def chunk3_shape (s : Shape) : Option Shape :=
  match s.getLast? with
  | some d => if 3 ∣ d then some (s.dropLast ++ [d / 3]) else none
  | none => none

/-- `rearrange(t, 'b n (h d) -> b h n d', h=h)` (ViT.py line 55): requires
a rank-3 input whose last dimension factors as `h * d` with `h` given. -/
def rearrange_split_heads_shape (h : ℕ) : Shape → Option Shape
  | [b, n, hd] => if 0 < h ∧ h ∣ hd then some [b, h, n, hd / h] else none
  | _ => none

/-- `einsum('b h i d, b h j d -> b h i j', q, k)` (ViT.py line 57). -/
def einsum_qk_shape : Shape → Shape → Option Shape
  | [b, hh, i, d], [b2, h2, j, d2] =>
      if b = b2 ∧ hh = h2 ∧ d = d2 then some [b, hh, i, j] else none
  | _, _ => none

/-- `einsum('b h i j, b h j d -> b h i d', attn, v)` (ViT.py line 61). -/
def einsum_av_shape : Shape → Shape → Option Shape
  | [b, hh, i, j], [b2, h2, j2, d] =>
      if b = b2 ∧ hh = h2 ∧ j = j2 then some [b, hh, i, d] else none
  | _, _ => none

/-- `rearrange(out, 'b h n d -> b n (h d)')` (ViT.py line 62). -/
def rearrange_merge_heads_shape : Shape → Option Shape
  | [b, hh, n, d] => some [b, n, hh * d]
  | _ => none

/-- `x + y` between same-shaped tensors (the residual additions of
`Transformer.forward`; torch broadcasting beyond equal shapes is not
needed there). -/
def add_shape (s1 s2 : Shape) : Option Shape :=
  if s1 = s2 then some s1 else none

/-- `Attention.forward` (ViT.py lines 52-63): destructures `b, n, _ =
x.shape` (rank 3 required), applies `to_qkv = nn.Linear(dim, inner_dim *
3)` with `inner_dim = dim_head * heads`, chunks into q, k, v (all of one
shape), splits heads, forms attention scores (`Softmax` preserves shape),
applies them to v, merges heads, and applies `to_out` — a
`nn.Linear(inner_dim, dim)` unless `heads == 1 and dim_head == dim`, in
which case `nn.Identity()`. -/
def attention_shape (dim heads dim_head : ℕ) : Shape → Option Shape
  | [b, n, e] => do
      let qkv ← linear_shape dim (dim_head * heads * 3) [b, n, e]
      let q ← chunk3_shape qkv
      let q ← rearrange_split_heads_shape heads q
      -- k and v have the same shape as q
      let dots ← einsum_qk_shape q q
      let out ← einsum_av_shape dots q
      let merged ← rearrange_merge_heads_shape out
      if heads = 1 ∧ dim_head = dim then some merged
      else linear_shape (dim_head * heads) dim merged
  | _ => none

/-- `FeedForward` (ViT.py lines 20-32): `Linear(dim, hidden)`, `GELU`,
`Dropout`, `Linear(hidden, dim)`, `Dropout`. -/
def feed_forward_shape (dim hidden : ℕ) (s : Shape) : Option Shape :=
  linear_shape dim hidden s >>= linear_shape hidden dim

/-- One layer of `Transformer.forward` (ViT.py lines 77-81): `x = attn(x)
+ x; x = ff(x) + x`, both wrapped in `PreNorm(dim, ·)`. -/
def transformer_layer_shape (dim heads dim_head mlp_dim : ℕ) (s : Shape) :
    Option Shape := do
  let a ← layer_norm_shape dim s >>= attention_shape dim heads dim_head
  let x1 ← add_shape a s
  let f ← layer_norm_shape dim x1 >>= feed_forward_shape dim mlp_dim
  add_shape f x1

/-- `Transformer.forward` over `depth` identical layers (ViT.py lines
66-81). -/
def transformer_shape (dim heads dim_head mlp_dim : ℕ) : ℕ → Shape → Option Shape
  | 0, s => some s
  | d + 1, s =>
      transformer_layer_shape dim heads dim_head mlp_dim s >>=
        transformer_shape dim heads dim_head mlp_dim d

/-- `Rearrange('b n (pco pz py px) -> b n pco pz py px', pco=pco, pz=pz,
py=py, px=px)` (ViT.py lines 111-112): all four factors are given, so the
last dimension must equal their product exactly. -/
def rearrange_unflatten_shape (pco pz py px : ℕ) : Shape → Option Shape
  | [b, n, m] => if m = pco * pz * py * px then some [b, n, pco, pz, py, px] else none
  | _ => none

/-- The state a constructed `ViT` module holds, at the shape level
(ViT.py lines 84-113): the constructor parameters that determine forward
shapes, plus `self.pos_embedding`, whose value (a shape-level module when
present) is what `ViT.forward` consults. -/
structure ViTState where
  pz : ℕ
  py : ℕ
  px : ℕ
  in_channels : ℕ
  out_channels : ℕ
  patch_emb_dim : ℕ
  depth : ℕ
  heads : ℕ
  dim_head : ℕ
  mlp_dim : ℕ
  pos_embedding : Option (Shape → Option Shape)

/-- `ViT.__init__` (ViT.py lines 85-113): assert that `pos_embedding` is
one of the five accepted strings, set `self.pos_embedding = None` (the
following `if pos_embedding == '': pass` has no effect), and record the
layer dimensions.  A rejected string fails the assertion (`none`). -/
def vit_init (pos_embedding_arg : String)
    (pz py px in_channels out_channels patch_emb_dim depth heads dim_head mlp_dim : ℕ) :
    Option ViTState :=
  if pos_embedding_arg = "none" ∨ pos_embedding_arg = "global" ∨
     pos_embedding_arg = "sin" ∨ pos_embedding_arg = "CPE" ∨
     pos_embedding_arg = "learned" then
    some { pz := pz, py := py, px := px,
           in_channels := in_channels, out_channels := out_channels,
           patch_emb_dim := patch_emb_dim, depth := depth, heads := heads,
           dim_head := dim_head, mlp_dim := mlp_dim,
           pos_embedding := none }
  else none

/-- `ViT.forward` (ViT.py lines 115-128): `embed_patch` (rank-6 rearrange
then `Linear(np.product(patch_size) * in_channels, patch_emb_dim)`), the
positional-embedding addition guarded by `if self.pos_embedding is not
None`, `Dropout` (shape-preserving), the transformer, then `unembed_patch`
(`Linear(patch_emb_dim, np.product(patch_size) * out_channels)` and the
rank-restoring rearrange).  The `print` calls have no effect. -/
def vit_forward_shape (st : ViTState) (s : Shape) : Option Shape := do
  let x ← rearrange_flatten_shape s
  let x ← linear_shape (st.pz * st.py * st.px * st.in_channels) st.patch_emb_dim x
  let x ← match st.pos_embedding with
    | some pe => do
        let p ← pe x
        add_shape x p
    | none => some x
  let x ← transformer_shape st.patch_emb_dim st.heads st.dim_head st.mlp_dim st.depth x
  let x ← linear_shape st.patch_emb_dim (st.pz * st.py * st.px * st.out_channels) x
  rearrange_unflatten_shape st.out_channels st.pz st.py st.px x

/-- Concrete raw volume standing in for sample_A in witnesses: raw
intensities within [0, 255]. -/
def rawSampleA : RawVolume := { image := [0, 128, 255], label := [1, 1, 2] }

/-- Concrete raw volume standing in for sample_B in witnesses. -/
def rawSampleB : RawVolume := { image := [10, 20, 30], label := [3, 3, 4] }

/-- Concrete raw volume standing in for sample_C in witnesses. -/
def rawSampleC : RawVolume := { image := [40, 50, 60], label := [5, 6, 6] }

/-- The concrete dataset used by witnesses and counterexamples:
patch_size 8 broadcast to (8,8,8), pipeline shrink (2,2,2,2,2,2), the
three sample raw volumes. -/
def sampleDataset : CremiDataset :=
  cremiInitCore (PatchSizeArg.int 8) [2, 2, 2, 2, 2, 2]
    rawSampleA rawSampleB rawSampleC

/-- Index of the first training volume of `sampleDataset`. -/
def sampleTrainingChoice : Fin sampleDataset.training_volumes.length :=
  ⟨0, by decide⟩

/-- Index of the first (and only) validation volume of `sampleDataset`. -/
def sampleValidationChoice : Fin sampleDataset.validation_volumes.length :=
  ⟨0, by decide⟩

/-- C1: `CremiDataset` construction computes the pre-transform (oversized)
patch size per spatial axis as `patch_size[i] + shrink_size[i] +
shrink_size[i+3]` and passes exactly that size to every
`GroundTruthVolume` it constructs (both the validation volume and the two
training volumes); in particular patch_size (8,8,8) with total shrink
(2,2,2,2,2,2) yields (12,12,12). -/
theorem C1_oversized_patch_size_flows_to_every_volume
    (p0 p1 p2 s0 s1 s2 s3 s4 s5 : ℤ) (rvA rvB rvC : RawVolume) :
    ((cremiInitCore (PatchSizeArg.tuple [p0, p1, p2]) [s0, s1, s2, s3, s4, s5]
        rvA rvB rvC).validation_volumes.map GroundTruthVolume.patch_size =
      [[p0 + s0 + s3, p1 + s1 + s4, p2 + s2 + s5]] ∧
     (cremiInitCore (PatchSizeArg.tuple [p0, p1, p2]) [s0, s1, s2, s3, s4, s5]
        rvA rvB rvC).training_volumes.map GroundTruthVolume.patch_size =
      [[p0 + s0 + s3, p1 + s1 + s4, p2 + s2 + s5],
       [p0 + s0 + s3, p1 + s1 + s4, p2 + s2 + s5]]) ∧
    patch_size_before_transform [8, 8, 8] [2, 2, 2, 2, 2, 2] = [12, 12, 12] :=
  ⟨⟨rfl, rfl⟩, by decide⟩

/-- C3 counterexample: with a valid ratio 9/10 and the invalid patch size
`0` (an integer that is not positive), construction nevertheless succeeds,
refuting the claimed "succeeds iff ... patch_size is a positive integer or
a 3-tuple of positive integers". -/
theorem C3_counterexample :
    ¬ (isOkB (cremiInit (9/10) (PatchSizeArg.int 0) [0, 0, 0, 0, 0, 0]
          rawSampleA rawSampleB rawSampleC) = true ↔
       ((1 : ℚ)/2 < 9/10 ∧ (9 : ℚ)/10 < 1 ∧
        specValidPatchSize (PatchSizeArg.int 0) = true)) := by
  intro h
  have hok : isOkB (cremiInit (9/10) (PatchSizeArg.int 0) [0, 0, 0, 0, 0, 0]
      rawSampleA rawSampleB rawSampleC) = true := by
    have ha : (9 : ℚ)/10 > 1/2 := by norm_num
    have hb : (9 : ℚ)/10 < 1 := by norm_num
    unfold cremiInit
    rw [if_neg (not_not.mpr ha), if_neg (not_not.mpr hb)]
    rfl
  have hbad := (h.mp hok).2.2
  simp [specValidPatchSize] at hbad

/-- C3 amended: construction succeeds iff `training_split_ratio` lies in
the open interval (1/2, 1); `patch_size` is never validated (any integer
or tuple is accepted), and a single integer is broadcast to the cube
(p, p, p). -/
theorem C3_construction_validates_only_ratio (r : ℚ) (psArg : PatchSizeArg)
    (shrink : List ℤ) (rvA rvB rvC : RawVolume) (p : ℤ) :
    (isOkB (cremiInit r psArg shrink rvA rvB rvC) = true ↔ (1/2 < r ∧ r < 1)) ∧
    broadcastPatchSize (PatchSizeArg.int p) = [p, p, p] := by
  refine ⟨?_, rfl⟩
  unfold cremiInit
  by_cases h1 : r > 1/2
  · by_cases h2 : r < 1
    · rw [if_neg (not_not.mpr h1), if_neg (not_not.mpr h2)]
      simp only [isOkB, eq_self_iff_true, true_iff]
      exact ⟨h1, h2⟩
    · rw [if_neg (not_not.mpr h1), if_pos h2]
      simp only [isOkB, Bool.false_eq_true, false_iff]
      exact fun hc => h2 hc.2
  · rw [if_pos h1]
    simp only [isOkB, Bool.false_eq_true, false_iff]
    exact fun hc => h1 hc.1

/-- C4: the validation set is exactly the first loaded volume and the
training set is all remaining loaded volumes in load order; when the
loaded volumes are pairwise distinct the two sets are disjoint. -/
theorem C4_validation_first_training_rest (psArg : PatchSizeArg)
    (shrink : List ℤ) (rvA rvB rvC : RawVolume) :
    (cremiInitCore psArg shrink rvA rvB rvC).validation_volumes =
      (loadedVolumes psArg shrink rvA rvB rvC).take 1 ∧
    (cremiInitCore psArg shrink rvA rvB rvC).training_volumes =
      (loadedVolumes psArg shrink rvA rvB rvC).drop 1 ∧
    ((loadedVolumes psArg shrink rvA rvB rvC).Nodup →
      List.Disjoint (cremiInitCore psArg shrink rvA rvB rvC).validation_volumes
        (cremiInitCore psArg shrink rvA rvB rvC).training_volumes) := by
  refine ⟨rfl, rfl, ?_⟩
  intro hnd
  simp only [loadedVolumes, List.nodup_cons, List.mem_cons, List.mem_singleton,
    List.not_mem_nil, or_false, not_or, List.nodup_nil, and_true] at hnd
  intro x hx hx2
  simp only [cremiInitCore, loadedVolumes, List.take, List.mem_singleton] at hx
  simp only [cremiInitCore, loadedVolumes, List.drop, List.mem_cons,
    List.mem_singleton, List.not_mem_nil, or_false] at hx2
  subst hx
  rcases hx2 with h | h
  · exact hnd.1.1 h
  · exact hnd.1.2 h

/-- C4 witness: at distinct concrete raw volumes the loaded volumes are
pairwise distinct and the two stored sets are disjoint. -/
theorem C4_validation_first_training_rest_witness :
    (loadedVolumes (PatchSizeArg.int 8) [2, 2, 2, 2, 2, 2]
      rawSampleA rawSampleB rawSampleC).Nodup ∧
    List.Disjoint
      (cremiInitCore (PatchSizeArg.int 8) [2, 2, 2, 2, 2, 2]
        rawSampleA rawSampleB rawSampleC).validation_volumes
      (cremiInitCore (PatchSizeArg.int 8) [2, 2, 2, 2, 2, 2]
        rawSampleA rawSampleB rawSampleC).training_volumes :=
  ⟨by norm_num [loadedVolumes, loadVolume, normalizeImage, rawSampleA,
      rawSampleB, rawSampleC],
   (C4_validation_first_training_rest (PatchSizeArg.int 8) [2, 2, 2, 2, 2, 2]
      rawSampleA rawSampleB rawSampleC).2.2
    (by norm_num [loadedVolumes, loadVolume, normalizeImage, rawSampleA,
        rawSampleB, rawSampleC])⟩

/-- C7: at volume load time every raw image array is mapped through
division by 255 (`image.astype(np.float32) / 255.`, modelled exactly over
ℚ), and for raw intensities in [0, 255] every resulting value lies in
[0, 1]. -/
theorem C7_loaded_images_normalized_to_unit_interval (img : List ℤ)
    (hv : ∀ v ∈ img, 0 ≤ v ∧ v ≤ 255) :
    (∀ x ∈ normalizeImage img, 0 ≤ x ∧ x ≤ 1) ∧
    (∀ (psArg : PatchSizeArg) (shrink : List ℤ) (rvA rvB rvC : RawVolume),
      (loadedVolumes psArg shrink rvA rvB rvC).map GroundTruthVolume.image =
        [normalizeImage rvA.image, normalizeImage rvB.image,
         normalizeImage rvC.image]) := by
  refine ⟨?_, fun _ _ _ _ _ => rfl⟩
  intro x hx
  unfold normalizeImage at hx
  obtain ⟨v, hvmem, rfl⟩ := List.mem_map.mp hx
  obtain ⟨h0, h255⟩ := hv v hvmem
  constructor
  · apply div_nonneg _ (by norm_num)
    exact_mod_cast h0
  · rw [div_le_one (by norm_num)]
    exact_mod_cast h255

/-- C7 witness: the mid-range raw intensity 128 is stored as 128/255,
which lies in [0, 1]. -/
theorem C7_loaded_images_normalized_to_unit_interval_witness :
    0 ≤ (128 : ℚ)/255 ∧ (128 : ℚ)/255 ≤ 1 :=
  (C7_loaded_images_normalized_to_unit_interval [0, 128, 255] (by decide)).1
    ((128 : ℚ)/255) (by norm_num [normalizeImage])

/-- C9: for any two split ratios inside the open interval (1/2, 1),
construction produces identical datasets — the ratio is never stored and
influences nothing after the two assertions. -/
theorem C9_split_ratio_influences_nothing (r1 r2 : ℚ) (psArg : PatchSizeArg)
    (shrink : List ℤ) (rvA rvB rvC : RawVolume)
    (h1a : 1/2 < r1) (h1b : r1 < 1) (h2a : 1/2 < r2) (h2b : r2 < 1) :
    cremiInit r1 psArg shrink rvA rvB rvC =
      cremiInit r2 psArg shrink rvA rvB rvC := by
  unfold cremiInit
  rw [if_neg (not_not.mpr h1a), if_neg (not_not.mpr h1b),
    if_neg (not_not.mpr h2a), if_neg (not_not.mpr h2b)]

/-- C9 witness: ratios 3/5 and 9/10 give the same constructed dataset at
concrete arguments. -/
theorem C9_split_ratio_influences_nothing_witness :
    cremiInit (3/5) (PatchSizeArg.int 8) [2, 2, 2, 2, 2, 2]
        rawSampleA rawSampleB rawSampleC =
      cremiInit (9/10) (PatchSizeArg.int 8) [2, 2, 2, 2, 2, 2]
        rawSampleA rawSampleB rawSampleC :=
  C9_split_ratio_influences_nothing (3/5) (9/10) (PatchSizeArg.int 8)
    [2, 2, 2, 2, 2, 2] rawSampleA rawSampleB rawSampleC
    (by norm_num) (by norm_num) (by norm_num) (by norm_num)

/-- C2 counterexample: `random_validation_patch` performs no postcondition
check — at a concrete dataset (patch_size (8,8,8)) with external stages
that leave a (12,12,12) patch, it returns normally with a wrong-shaped
patch, refuting "both entry points verify the returned shape / never
silently return a wrong-shaped patch". -/
theorem C2_counterexample :
    pyLastSlice3 (random_validation_patch sampleDataset
        (fun _ => { shape := [12, 12, 12] }) id id sampleValidationChoice).shape ≠
      sampleDataset.patch_size := by
  decide

/-- C2 amended: only `random_training_patch` checks the post-crop shape
postcondition (any normal return satisfies it); `random_validation_patch`
performs no such check and can return a patch whose last three axes differ
from the configured patch_size. -/
theorem C2_only_training_checks_postcondition :
    (∀ (d : CremiDataset) (randomPatch : GroundTruthVolume → Patch)
       (transformApply applyDelayedShrink : Patch → Patch)
       (choice : Fin d.training_volumes.length) (p : Patch),
       random_training_patch d randomPatch transformApply applyDelayedShrink
           choice = Except.ok p →
       pyLastSlice3 p.shape = d.patch_size) ∧
    pyLastSlice3 (random_validation_patch sampleDataset
        (fun _ => { shape := [5, 5, 5] }) id id sampleValidationChoice).shape ≠
      sampleDataset.patch_size := by
  constructor
  · intro d randomPatch transformApply applyDelayedShrink choice p h
    simp only [random_training_patch] at h
    split at h
    next hc => cases h; exact hc
    next hc => cases h
  · decide

/-- C2 amended witness: at concrete external stages that leave the patch
at the dataset's configured size, the training entry point returns
normally and its result satisfies the shape postcondition. -/
theorem C2_only_training_checks_postcondition_witness :
    pyLastSlice3 (Patch.mk [8, 8, 8]).shape = sampleDataset.patch_size :=
  C2_only_training_checks_postcondition.1 sampleDataset
    (fun _ => { shape := [8, 8, 8] }) id id sampleTrainingChoice
    (Patch.mk [8, 8, 8]) rfl

/-- C5: each sampling request — `random_training_patch` and
`random_validation_patch` alike — runs the fixed three-stage flow in order
(draw raw patch from the chosen volume, pass that same patch through the
transform pipeline, crop via the delayed shrink; the training entry point
then applies its postcondition check); the dataset's pipeline is exactly
`prepare_transform`, whose first six entries are the intensity/noise
transforms and whose tail places `Flip` and `Transpose` after
`Perspective2D`. -/
theorem C5_three_stage_flow_and_transform_order :
    (∀ (d : CremiDataset) (randomPatch : GroundTruthVolume → Patch)
       (transformApply applyDelayedShrink : Patch → Patch)
       (choice : Fin d.training_volumes.length),
       random_training_patch d randomPatch transformApply applyDelayedShrink
           choice =
         (let rawPatch := randomPatch (d.training_volumes.get choice)
          let transformed := transformApply rawPatch
          let cropped := applyDelayedShrink transformed
          if pyLastSlice3 cropped.shape = d.patch_size then Except.ok cropped
          else Except.error
            (PostconditionError.patchShapeMismatch cropped.shape))) ∧
    (∀ (d : CremiDataset) (randomPatch : GroundTruthVolume → Patch)
       (transformApply applyDelayedShrink : Patch → Patch)
       (choice : Fin d.validation_volumes.length),
       random_validation_patch d randomPatch transformApply applyDelayedShrink
           choice =
         (let rawPatch := randomPatch (d.validation_volumes.get choice)
          let transformed := transformApply rawPatch
          applyDelayedShrink transformed)) ∧
    (∀ (psArg : PatchSizeArg) (shrink : List ℤ) (rvA rvB rvC : RawVolume),
       (cremiInitCore psArg shrink rvA rvB rvC).transform.transforms =
         prepare_transform) ∧
    prepare_transform.take 6 =
      [TransformKind.normalizeTo01, TransformKind.adjustBrightness,
       TransformKind.adjustContrast, TransformKind.gamma,
       TransformKind.oneOf [TransformKind.noise, TransformKind.gaussianBlur2D],
       TransformKind.blackBox] ∧
    prepare_transform.drop 6 =
      [TransformKind.perspective2D, TransformKind.flip,
       TransformKind.transpose, TransformKind.missAlignment] :=
  ⟨fun _ _ _ _ _ => rfl, fun _ _ _ _ _ => rfl, fun _ _ _ _ _ => rfl, rfl, rfl⟩

/-- C6: whenever `random_training_patch` returns normally, the returned
patch's last three axes equal the dataset's configured `patch_size`. -/
theorem C6_training_patch_returns_exact_shape (d : CremiDataset)
    (randomPatch : GroundTruthVolume → Patch)
    (transformApply applyDelayedShrink : Patch → Patch)
    (choice : Fin d.training_volumes.length) (p : Patch)
    (h : random_training_patch d randomPatch transformApply applyDelayedShrink
        choice = Except.ok p) :
    pyLastSlice3 p.shape = d.patch_size := by
  simp only [random_training_patch] at h
  split at h
  next hc => cases h; exact hc
  next hc => cases h

/-- C6 witness: a concrete normal return (raw patch of shape
(1,1,8,8,8), identity external stages) has spatial shape equal to the
configured (8,8,8). -/
theorem C6_training_patch_returns_exact_shape_witness :
    pyLastSlice3 (Patch.mk [1, 1, 8, 8, 8]).shape = sampleDataset.patch_size :=
  C6_training_patch_returns_exact_shape sampleDataset
    (fun _ => { shape := [1, 1, 8, 8, 8] }) id id sampleTrainingChoice
    (Patch.mk [1, 1, 8, 8, 8]) rfl

/-- `nn.Linear(inF, outF)` on a rank-3 shape whose last dimension is
`inF`. -/
theorem linear_shape_last (inF outF b n : ℕ) :
    linear_shape inF outF [b, n, inF] = some [b, n, outF] := by
  show (if inF = inF then some ([b, n, inF].dropLast ++ [outF]) else none) =
    some [b, n, outF]
  rw [if_pos rfl]
  rfl

/-- `nn.LayerNorm(dim)` on a rank-3 shape whose last dimension is `dim`. -/
theorem layer_norm_shape_last (dim b n : ℕ) :
    layer_norm_shape dim [b, n, dim] = some [b, n, dim] := by
  show (if dim = dim then some [b, n, dim] else none) = some [b, n, dim]
  rw [if_pos rfl]

/-- Chunking a last dimension that is a multiple of three. -/
theorem chunk3_shape_rank3 (b n m : ℕ) :
    chunk3_shape [b, n, m * 3] = some [b, n, m] := by
  show (if 3 ∣ m * 3 then some ([b, n, m * 3].dropLast ++ [m * 3 / 3]) else none) =
    some [b, n, m]
  rw [if_pos (dvd_mul_left 3 m), Nat.mul_div_cancel _ (by norm_num)]
  rfl

/-- Splitting a last dimension `dh * hh` into `hh` heads of size `dh`. -/
theorem rearrange_split_heads_shape_eq (hh dh b n : ℕ) (hpos : 0 < hh) :
    rearrange_split_heads_shape hh [b, n, dh * hh] = some [b, hh, n, dh] := by
  show (if 0 < hh ∧ hh ∣ dh * hh then some [b, hh, n, dh * hh / hh] else none) =
    some [b, hh, n, dh]
  rw [if_pos ⟨hpos, dvd_mul_left hh dh⟩, Nat.mul_div_cancel _ hpos]

/-- Attention-score einsum on matching q and k shapes. -/
theorem einsum_qk_shape_eq (b hh n d : ℕ) :
    einsum_qk_shape [b, hh, n, d] [b, hh, n, d] = some [b, hh, n, n] := by
  show (if b = b ∧ hh = hh ∧ d = d then some [b, hh, n, n] else none) =
    some [b, hh, n, n]
  rw [if_pos ⟨rfl, rfl, rfl⟩]

/-- Attention-application einsum on matching score and v shapes. -/
theorem einsum_av_shape_eq (b hh n d : ℕ) :
    einsum_av_shape [b, hh, n, n] [b, hh, n, d] = some [b, hh, n, d] := by
  show (if b = b ∧ hh = hh ∧ n = n then some [b, hh, n, d] else none) =
    some [b, hh, n, d]
  rw [if_pos ⟨rfl, rfl, rfl⟩]

/-- `Attention.forward` maps a rank-3 shape with last dimension `dim` to
itself (for a positive number of heads). -/
theorem attention_shape_preserves (dim heads dim_head b n : ℕ) (hh : 0 < heads) :
    attention_shape dim heads dim_head [b, n, dim] = some [b, n, dim] := by
  unfold attention_shape
  dsimp only
  rw [linear_shape_last]
  dsimp only [Bind.bind, Option.bind]
  rw [chunk3_shape_rank3]
  dsimp only [Bind.bind, Option.bind]
  rw [rearrange_split_heads_shape_eq _ _ _ _ hh]
  dsimp only [Bind.bind, Option.bind]
  rw [einsum_qk_shape_eq]
  dsimp only [Bind.bind, Option.bind]
  rw [einsum_av_shape_eq]
  dsimp only [Bind.bind, Option.bind]
  show (if heads = 1 ∧ dim_head = dim then some [b, n, heads * dim_head]
        else linear_shape (dim_head * heads) dim [b, n, heads * dim_head]) =
      some [b, n, dim]
  by_cases hpo : heads = 1 ∧ dim_head = dim
  · rw [if_pos hpo]
    obtain ⟨h1, h2⟩ := hpo
    subst h1
    subst h2
    rw [one_mul]
  · rw [if_neg hpo, show heads * dim_head = dim_head * heads from Nat.mul_comm _ _]
    exact linear_shape_last _ _ _ _

/-- Residual addition of a shape with itself. -/
theorem add_shape_self (s : Shape) : add_shape s s = some s := by
  unfold add_shape
  rw [if_pos rfl]

/-- `FeedForward` maps a rank-3 shape with last dimension `dim` to
itself. -/
theorem feed_forward_shape_preserves (dim hidden b n : ℕ) :
    feed_forward_shape dim hidden [b, n, dim] = some [b, n, dim] := by
  unfold feed_forward_shape
  rw [linear_shape_last]
  dsimp only [Bind.bind, Option.bind]
  exact linear_shape_last _ _ _ _

/-- One transformer layer preserves a rank-3 shape with last dimension
`dim`. -/
theorem transformer_layer_shape_preserves (dim heads dim_head mlp b n : ℕ)
    (hh : 0 < heads) :
    transformer_layer_shape dim heads dim_head mlp [b, n, dim] =
      some [b, n, dim] := by
  unfold transformer_layer_shape
  rw [layer_norm_shape_last]
  dsimp only [Bind.bind, Option.bind]
  rw [attention_shape_preserves _ _ _ _ _ hh]
  dsimp only [Bind.bind, Option.bind]
  rw [add_shape_self]
  dsimp only [Bind.bind, Option.bind]
  rw [layer_norm_shape_last]
  dsimp only [Bind.bind, Option.bind]
  rw [feed_forward_shape_preserves]
  dsimp only [Bind.bind, Option.bind]
  exact add_shape_self _

/-- `Transformer.forward` preserves a rank-3 shape with last dimension
`dim`, for any depth. -/
theorem transformer_shape_preserves (dim heads dim_head mlp : ℕ) (hh : 0 < heads)
    (depth b n : ℕ) :
    transformer_shape dim heads dim_head mlp depth [b, n, dim] =
      some [b, n, dim] := by
  induction depth with
  | zero => rfl
  | succ d ih =>
      show (transformer_layer_shape dim heads dim_head mlp [b, n, dim] >>=
        transformer_shape dim heads dim_head mlp d) = some [b, n, dim]
      rw [transformer_layer_shape_preserves _ _ _ _ _ _ hh]
      dsimp only [Bind.bind, Option.bind]
      exact ih

/-- C8: for an input tensor of shape (batch, n, in_channels, pz, py, px)
matching the constructor's patch_size and in_channels (and a positive
number of attention heads), `ViT.forward` produces a tensor of shape
(batch, n, out_channels, pz, py, px). -/
theorem C8_vit_forward_output_shape
    (b n pz py px inC outC emb depth heads dimHead mlp : ℕ) (hh : 0 < heads) :
    vit_forward_shape
        ⟨pz, py, px, inC, outC, emb, depth, heads, dimHead, mlp, none⟩
        [b, n, inC, pz, py, px] =
      some [b, n, outC, pz, py, px] := by
  unfold vit_forward_shape
  dsimp only
  rw [show rearrange_flatten_shape [b, n, inC, pz, py, px] =
        some [b, n, inC * pz * py * px] from rfl]
  dsimp only [Bind.bind, Option.bind]
  rw [show inC * pz * py * px = pz * py * px * inC by ring, linear_shape_last]
  dsimp only [Bind.bind, Option.bind]
  rw [transformer_shape_preserves _ _ _ _ hh]
  dsimp only [Bind.bind, Option.bind]
  rw [linear_shape_last]
  dsimp only [Bind.bind, Option.bind]
  show (if pz * py * px * outC = outC * pz * py * px
        then some [b, n, outC, pz, py, px] else none) =
      some [b, n, outC, pz, py, px]
  rw [if_pos (by ring)]

/-- C8 witness: a concrete ViT with patch size (2,3,4), 2 input channels,
5 output channels, embedding width 7, depth 2, 2 heads of size 3 and MLP
width 11 maps an input of shape (1,6,2,2,3,4) to shape (1,6,5,2,3,4). -/
theorem C8_vit_forward_output_shape_witness :
    (0 : ℕ) < 2 ∧
    vit_forward_shape ⟨2, 3, 4, 2, 5, 7, 2, 2, 3, 11, none⟩ [1, 6, 2, 2, 3, 4] =
      some [1, 6, 5, 2, 3, 4] :=
  ⟨by decide, C8_vit_forward_output_shape 1 6 2 3 4 2 5 7 2 2 3 11 (by decide)⟩

/-- C10: for every accepted `pos_embedding` option, construction stores
`self.pos_embedding = None`, and the constructed module is identical to
the one built with option "none" — so forward behavior never involves a
positional embedding and is the same for all five options. -/
theorem C10_pos_embedding_always_none (opt : String)
    (pz py px inC outC emb depth heads dimHead mlp : ℕ)
    (h : opt = "none" ∨ opt = "global" ∨ opt = "sin" ∨ opt = "CPE" ∨
      opt = "learned") :
    vit_init opt pz py px inC outC emb depth heads dimHead mlp =
      some ⟨pz, py, px, inC, outC, emb, depth, heads, dimHead, mlp, none⟩ ∧
    vit_init opt pz py px inC outC emb depth heads dimHead mlp =
      vit_init "none" pz py px inC outC emb depth heads dimHead mlp := by
  constructor
  · unfold vit_init
    rw [if_pos h]
  · unfold vit_init
    rw [if_pos h, if_pos (Or.inl rfl)]

/-- C10 witness: the "global" option builds exactly the module the "none"
option builds, at concrete dimensions. -/
theorem C10_pos_embedding_always_none_witness :
    vit_init "global" 2 3 4 2 5 7 2 2 3 11 =
      vit_init "none" 2 3 4 2 5 7 2 2 3 11 :=
  (C10_pos_embedding_always_none "global" 2 3 4 2 5 7 2 2 3 11
    (Or.inr (Or.inl rfl))).2

end Neutorch
